import Mathlib

/-!
Verification of the MaiBot plugin template (MaiM-with-u/plugin-template).

Shallow embedding of the Python sources:
  * `src/plugin.py` — configuration-driven component registration
    (`ExampleTemplatePlugin.get_plugin_components`);
  * `src/components/commands/config_command.py` — the config command's
    regex pattern, value coercion (`_convert_config_value`), value
    validation (`_validate_config_value`) and the set handler
    (`_handle_set_config`);
  * `src/components/commands/help_command.py` — the help command pattern;
  * `src/scripts/validate_manifest.py` — the manifest validator;
  * `src/utils/helpers.py` — `ConfigHelper.get_nested_value` /
    `set_nested_value`.

Python machine details are modelled as: strings are Lean `String`
(character lists), Python numbers are exact rationals (`Rat`; every
numeric literal a claim compares — 0, 1, 0.5, 1.5 — is exactly
representable in binary floating point, so comparisons agree with
CPython), fallible operations return `Option`/`Except`, and a raised
`TypeError`/`IndexError` is an explicit `none`/crash outcome.
-/

/- ============================================================
   Part 1: component registration (src/plugin.py)
   ============================================================ -/

/-- The four components registered by the template plugin, in the order
their registration blocks appear in `get_plugin_components`
(src/plugin.py lines 182–206).  Each constructor stands for the pair
`(ComponentInfo, Type)` the Python code appends for that component. -/
inductive Component where
  | greetingAction
  | smartResponseAction
  | helpCommand
  | configCommand
deriving DecidableEq, Repr

/-- A configuration state as seen through `self.get_config(key, default)`:
any function from a dotted key and the call-site default to the boolean
stored for that key.  (`get_plugin_components` only ever reads boolean
flags.) -/
def GetConfig : Type := String → Bool → Bool

/-- `ExampleTemplatePlugin.get_plugin_components` (src/plugin.py
lines 167–208): if `plugin.enabled` is false return the empty list,
otherwise append each component whose feature flag reads true, in
declaration order.  Note the call-site defaults: `true` for the first
three flags, `false` for `features.enable_config_command`. -/
def get_plugin_components (cfg : GetConfig) : List Component :=
  if !(cfg "plugin.enabled" true) then []
  else
    (if cfg "features.enable_greetings" true then [Component.greetingAction] else []) ++
    (if cfg "features.enable_smart_responses" true then [Component.smartResponseAction] else []) ++
    (if cfg "features.enable_help_command" true then [Component.helpCommand] else []) ++
    (if cfg "features.enable_config_command" false then [Component.configCommand] else [])

/-- The four per-component feature flags of the `features` section. -/
inductive Feature where
  | greetings
  | smartResponses
  | helpCommand
  | configCommand
deriving DecidableEq, Repr

/-- The dotted config key read for each feature flag. -/
def Feature.key : Feature → String
  | .greetings => "features.enable_greetings"
  | .smartResponses => "features.enable_smart_responses"
  | .helpCommand => "features.enable_help_command"
  | .configCommand => "features.enable_config_command"

/-- The call-site default passed to `get_config` for each feature flag. -/
def Feature.default : Feature → Bool
  | .greetings => true
  | .smartResponses => true
  | .helpCommand => true
  | .configCommand => false

/-- The component whose registration is gated by each feature flag. -/
def Feature.gates : Feature → Component
  | .greetings => .greetingAction
  | .smartResponses => .smartResponseAction
  | .helpCommand => .helpCommand
  | .configCommand => .configCommand

/-- The full component list in declaration order. -/
def declarationOrder : List Component :=
  [.greetingAction, .smartResponseAction, .helpCommand, .configCommand]

/-- C1: with the master flag `plugin.enabled` false, `get_plugin_components`
returns the empty sequence, whatever every other flag reads. -/
theorem resolve_master_off_empty (cfg : GetConfig)
    (h : cfg "plugin.enabled" true = false) :
    get_plugin_components cfg = [] := by
  simp [get_plugin_components, h]

/-- Witness for C1: a concrete configuration with the master flag off (and
every feature flag on) resolves to no components. -/
theorem resolve_master_off_empty_witness :
    get_plugin_components (fun k _ => k ≠ "plugin.enabled") = [] :=
  resolve_master_off_empty (fun k _ => k ≠ "plugin.enabled") (by decide)

/-- C2: with the master flag true and exactly one feature flag false, the
resolved sequence is the declaration-order list with exactly the component
gated by that flag removed. -/
theorem resolve_one_flag_off (cfg : GetConfig) (f : Feature)
    (hm : cfg "plugin.enabled" true = true)
    (hf : ∀ f' : Feature, cfg f'.key f'.default = decide (f' ≠ f)) :
    get_plugin_components cfg = declarationOrder.filter (· ≠ f.gates) := by
  have hg := hf .greetings
  have hs := hf .smartResponses
  have hh := hf .helpCommand
  have hc := hf .configCommand
  simp [Feature.key, Feature.default] at hg hs hh hc
  cases f <;>
    simp_all [get_plugin_components, declarationOrder, Feature.gates,
      List.filter]

/-- Witness for C2: turning only `features.enable_help_command` off in an
otherwise fully enabled configuration drops exactly `HelpCommand`. -/
theorem resolve_one_flag_off_witness :
    get_plugin_components (fun k _ => k ≠ "features.enable_help_command") =
      [Component.greetingAction, Component.smartResponseAction,
       Component.configCommand] := by
  have h := resolve_one_flag_off (fun k _ => k ≠ "features.enable_help_command")
    Feature.helpCommand (by decide)
    (by intro f'; cases f' <;> decide)
  simpa [declarationOrder, Feature.gates, List.filter] using h

/- ============================================================
   Part 2: regex command patterns (help_command.py, config_command.py)
   ============================================================ -/

/-- Python `\w` (ASCII range): `[a-zA-Z0-9_]`.  (CPython also admits other
Unicode word characters; no string in the repository's patterns, examples
or claims contains one.) -/
def isWordChar (c : Char) : Bool :=
  ('a' ≤ c && c ≤ 'z') || ('A' ≤ c && c ≤ 'Z') || ('0' ≤ c && c ≤ '9') || c = '_'

/-- Python `\s` (ASCII range): space, tab, newline, carriage return,
form feed, vertical tab. -/
def isSpaceChar (c : Char) : Bool :=
  c = ' ' || c = '\t' || c = '\n' || c = '\x0d' || c = '\x0c' || c = '\x0b'

/-- Python `.` without `re.DOTALL`: any character except newline. -/
def isDotChar (c : Char) : Bool := c ≠ '\n'

/-- Abstract syntax of the fragment of Python regexes the two command
patterns use: literals, character classes, concatenation, alternation,
greedy `?`, greedy `*`, and named capture groups. -/
inductive Re where
  | eps
  | lit (c : Char)
  | cls (f : Char → Bool)
  | cat (a b : Re)
  | alt (a b : Re)
  | opt (a : Re)
  | star (a : Re)
  | group (name : String) (a : Re)

/-- Captured named groups, in the order the groups complete. -/
abbrev Caps := List (String × String)

/-- Backtracking matcher in continuation-passing style, mirroring CPython's
`re` semantics on this fragment: alternation tries the left branch first,
`?` and `*` are greedy, and a `*` iteration must consume input (the two
command patterns repeat only expressions that always consume).  `fuel`
bounds the recursion depth only; every construct of the fragment either
descends into a strict subexpression or consumes a character before
re-entering a `*`, so any budget of at least
`(size of regex + 1) * (length of input + 3)` is conservative. -/
def matchRe : Nat → Re → List Char → Caps → (List Char → Caps → Option Caps) → Option Caps
  | 0, _, _, _, _ => none
  | fuel + 1, r, s, caps, k =>
    match r with
    | .eps => k s caps
    | .lit c =>
      match s with
      | [] => none
      | c' :: rest => if c' = c then k rest caps else none
    | .cls f =>
      match s with
      | [] => none
      | c' :: rest => if f c' then k rest caps else none
    | .cat a b =>
      matchRe fuel a s caps (fun s' caps' => matchRe fuel b s' caps' k)
    | .alt a b =>
      (matchRe fuel a s caps k).orElse (fun _ => matchRe fuel b s caps k)
    | .opt a =>
      (matchRe fuel a s caps k).orElse (fun _ => k s caps)
    | .star a =>
      (matchRe fuel a s caps (fun s' caps' =>
        if s'.length < s.length then matchRe fuel (.star a) s' caps' k
        else none)).orElse (fun _ => k s caps)
    | .group n a =>
      matchRe fuel a s caps (fun s' caps' =>
        k s' (caps' ++ [(n, String.mk (s.take (s.length - s'.length)))]))

/-- Number of AST nodes, used only to size the fuel budget. -/
def reSize : Re → Nat
  | .eps | .lit _ | .cls _ => 1
  | .cat a b | .alt a b => reSize a + reSize b + 1
  | .opt a | .star a | .group _ a => reSize a + 1

/-- Python `$`: end of the string, or just before one trailing newline. -/
def atEnd (s : List Char) : Bool := s = [] || s = ['\n']

/-- `re.match` against a pattern of the form `^...$`, as both command
patterns are written: anchored at the start (as `re.match` always is) and
required to end at `$`. -/
def reMatch (r : Re) (s : String) : Option Caps :=
  matchRe ((reSize r + 1) * (s.length + 3)) r s.data []
    (fun rest caps => if atEnd rest then some caps else none)

/-- Concatenation of the literal characters of a string. -/
def rstr (s : String) : Re :=
  s.data.foldr (fun c r => Re.cat (.lit c) r) .eps

/-- Greedy `+`, as `a` followed by `a*`. -/
def rplus (a : Re) : Re := .cat a (.star a)

/-- `HelpCommand.command_pattern` (src/components/commands/help_command.py
line 30): `^/help(?:\s+(?P<topic>actions|commands|config|all))?$`. -/
def help_command_pattern : Re :=
  .cat (rstr "/help")
    (.opt (.cat (rplus (.cls isSpaceChar))
      (.group "topic"
        (.alt (rstr "actions")
          (.alt (rstr "commands") (.alt (rstr "config") (rstr "all")))))))

/-- `ConfigCommand.command_pattern` (src/components/commands/config_command.py
line 30):
`^/config\s+(?P<action>get|set|list|reset)(?:\s+(?P<key>\w+(?:\.\w+)*))?(?:\s+(?P<value>.+))?$`. -/
def config_command_pattern : Re :=
  .cat (rstr "/config")
  (.cat (rplus (.cls isSpaceChar))
  (.cat (.group "action"
          (.alt (rstr "get") (.alt (rstr "set") (.alt (rstr "list") (rstr "reset")))))
  (.cat (.opt (.cat (rplus (.cls isSpaceChar))
          (.group "key"
            (.cat (rplus (.cls isWordChar))
              (.star (.cat (.lit '.') (rplus (.cls isWordChar))))))))
  (.opt (.cat (rplus (.cls isSpaceChar)) (.group "value" (rplus (.cls isDotChar))))))))

/-- C7: `"/help actions"` matches the help pattern with capture
`{topic: "actions"}` and does not match the config pattern, while
`"/help actions extra"` matches neither pattern. -/
theorem help_pattern_scenario :
    reMatch help_command_pattern "/help actions" = some [("topic", "actions")] ∧
    reMatch config_command_pattern "/help actions" = none ∧
    reMatch help_command_pattern "/help actions extra" = none ∧
    reMatch config_command_pattern "/help actions extra" = none := by
  refine ⟨?_, ?_, ?_, ?_⟩ <;> decide

/- ============================================================
   Part 3: config value coercion, validation and the set handler
   (src/components/commands/config_command.py)
   ============================================================ -/

/-- Python `str.lower` restricted to ASCII.  (CPython lowercases the full
Unicode range; no character that lowercases into the ASCII token sets of
`_convert_config_value` occurs outside them, so membership tests agree.) -/
def pyLower (s : String) : String := String.mk (s.data.map Char.toLower)

/-- `str.startswith(p)`. -/
def pyStartsWith (s p : String) : Bool := p.data.isPrefixOf s.data

/-- `str.endswith(p)`. -/
def pyEndsWith (s p : String) : Bool := p.data.reverse.isPrefixOf s.data.reverse

/-- `s[1:-1]`: the interior of a bracket-delimited string. -/
def pyInterior (s : String) : List Char := (s.data.drop 1).dropLast

/-- `str.split(sep)` for a one-character separator: like Python's, it
returns one (possibly empty) piece per separator gap, `[""]` on the empty
string. -/
def splitOnChar (c : Char) : List Char → List (List Char)
  | [] => [[]]
  | x :: xs =>
    if x = c then [] :: splitOnChar c xs
    else
      match splitOnChar c xs with
      | [] => [[x]]
      | h :: t => (x :: h) :: t

/-- The characters Python's default `str.strip()` removes (ASCII whitespace). -/
def pyWhitespace : List Char := [' ', '\t', '\n', '\x0d', '\x0c', '\x0b']

/-- `str.strip(chars)`: remove the given characters from both ends. -/
def pyStripChars (chars : List Char) (s : String) : String :=
  String.mk (((s.data.dropWhile (· ∈ chars)).reverse.dropWhile (· ∈ chars)).reverse)

/-- `str.strip()` with no argument: strip whitespace from both ends. -/
def pyStrip (s : String) : String := pyStripChars pyWhitespace s

/-- Digit run to a number; `none` when empty or containing a non-digit. -/
def digitsToNat (l : List Char) : Option Nat :=
  if l ≠ [] ∧ l.all Char.isDigit then
    some (l.foldl (fun n c => 10 * n + (c.toNat - 48)) 0)
  else none

/-- Python `int(string)`: optional surrounding whitespace, optional sign,
then decimal digits.  (CPython additionally allows single underscores
between digits; no claim exercises that.) -/
def pyInt (s : String) : Option Int :=
  match (pyStrip s).data with
  | '+' :: rest => (digitsToNat rest).map Int.ofNat
  | '-' :: rest => (digitsToNat rest).map (fun n => -(n : Int))
  | l => (digitsToNat l).map Int.ofNat

/-- The unsigned part of a Python float literal:
`digits [. digits] | digits . | . digits`, with an optional decimal
exponent.  Returned as (mantissa digits, fractional length, exponent),
so the value is mantissa / 10^length × 10^exponent. -/
def parseFloatParts (body : List Char) : Option (Nat × Nat × Int) := do
  let (mantE, expPart) := body.span (fun c => c ≠ 'e' && c ≠ 'E')
  let exp : Int ←
    match expPart with
    | [] => some 0
    | _ :: er =>
      match er with
      | '+' :: d => (digitsToNat d).map Int.ofNat
      | '-' :: d => (digitsToNat d).map (fun n => -(n : Int))
      | d => (digitsToNat d).map Int.ofNat
  let mant : Nat × Nat ←
    match mantE.span (· ≠ '.') with
    | (ip, []) => (digitsToNat ip).map (fun n => (n, 0))
    | (ip, '.' :: frac) =>
      if ip.isEmpty && frac.isEmpty then none
      else if ip.all Char.isDigit && frac.all Char.isDigit then
        some (ip.foldl (fun n c => 10 * n + (c.toNat - 48)) 0 * 10 ^ frac.length +
          frac.foldl (fun n c => 10 * n + (c.toNat - 48)) 0, frac.length)
      else none
    | _ => none
  return (mant.1, mant.2, exp)

/-- Python `float(string)` on decimal notation: optional surrounding
whitespace and sign.  The value is an exact rational; every float a claim
compares (0, 0.5, 1, 1.5) is an exact binary double, so order comparisons
agree with CPython.  (CPython also accepts `inf`/`infinity`/`nan`, which
have no rational value; no claim involves them.) -/
def pyFloat (s : String) : Option Rat :=
  let build : Int → Nat × Nat × Int → Rat := fun sign parts =>
    let (n, fLen, exp) := parts
    if 0 ≤ exp then mkRat (sign * n * 10 ^ exp.toNat) (10 ^ fLen)
    else mkRat (sign * n) (10 ^ fLen * 10 ^ (-exp).toNat)
  match (pyStrip s).data with
  | '+' :: rest => (parseFloatParts rest).map (build 1)
  | '-' :: rest => (parseFloatParts rest).map (build (-1))
  | l => (parseFloatParts l).map (build 1)

/-- The Python type of a current configuration value, as
`type(current_value)` dispatches `_convert_config_value`. -/
inductive CType where
  | bool | int | float | list | str | noneType
deriving DecidableEq, Repr

/-- A configuration value of the template's schema: Python bool, int,
float (exact rational model), str, list of str, or `None` (the
`get_config` miss result). -/
inductive CVal where
  | b (x : Bool)
  | i (x : Int)
  | f (x : Rat)
  | s (x : String)
  | l (x : List String)
  | none
deriving DecidableEq, Repr

/-- `type(current_value)` for dispatching the conversion. -/
def CVal.ctype : CVal → CType
  | .b _ => .bool
  | .i _ => .int
  | .f _ => .float
  | .s _ => .str
  | .l _ => .list
  | .none => .noneType

/-- The `ValueError` raised by `_convert_config_value`, by offending
branch. -/
inductive ConvErr where
  | notBool (v : String)
  | notInt (v : String)
  | notFloat (v : String)
deriving DecidableEq, Repr

instance {e a : Type} [DecidableEq e] [DecidableEq a] : DecidableEq (Except e a)
  | .error x, .error y =>
    match decEq x y with
    | isTrue h => isTrue (by rw [h])
    | isFalse h => isFalse (by intro hh; cases hh; exact h rfl)
  | .error _, .ok _ => isFalse (by intro h; cases h)
  | .ok _, .error _ => isFalse (by intro h; cases h)
  | .ok x, .ok y =>
    match decEq x y with
    | isTrue h => isTrue (by rw [h])
    | isFalse h => isFalse (by intro hh; cases hh; exact h rfl)

/-- `ConfigCommand._convert_config_value`
(src/components/commands/config_command.py lines 313–344): bool via two
case-insensitive token sets, int/float via the numeric parsers, list via
bracket splitting (items blank after whitespace-strip are dropped, kept
items are whitespace-stripped then quote-stripped), and everything
else — including `NoneType` — passes the raw string through. -/
def convert_config_value (value : String) (target : CType) : Except ConvErr CVal :=
  match target with
  | .bool =>
    if pyLower value ∈ ["true", "1", "yes", "on", "enabled"] then .ok (.b true)
    else if pyLower value ∈ ["false", "0", "no", "off", "disabled"] then .ok (.b false)
    else .error (.notBool value)
  | .int =>
    match pyInt value with
    | some n => .ok (.i n)
    | Option.none => .error (.notInt value)
  | .float =>
    match pyFloat value with
    | some q => .ok (.f q)
    | Option.none => .error (.notFloat value)
  | .list =>
    if pyStartsWith value "[" && pyEndsWith value "]" then
      let items := (splitOnChar ',' (pyInterior value)).map String.mk
      .ok (.l (items.filterMap (fun item =>
        if pyStrip item = "" then Option.none
        else some (pyStripChars ['"', '\''] (pyStrip item)))))
    else .ok (.l [value])
  | _ => .ok (.s value)

/-- `ConfigCommand._validate_config_value`
(src/components/commands/config_command.py lines 346–359).  The Python
rules use `isinstance`; a Python `bool` is an `int`, so `True`/`False`
count as 1/0 for the numeric rules. -/
def validate_config_value (key : String) (v : CVal) : Bool :=
  if key = "actions.response_probability" then
    match v with
    | .i n => 0 ≤ n && n ≤ 1
    | .f q => 0 ≤ q && q ≤ 1
    | .b _ => true
    | _ => false
  else if key = "commands.command_timeout" then
    match v with
    | .i n => 0 < n
    | .b x => x
    | _ => false
  else if key = "advanced.cache_ttl" then
    match v with
    | .i n => 0 < n
    | .b x => x
    | _ => false
  else if key = "advanced.log_level" then
    match v with
    | .s x => x ∈ ["DEBUG", "INFO", "WARNING", "ERROR"]
    | _ => false
  else true

/-- `ConfigCommand._validate_config_key`
(src/components/commands/config_command.py lines 307–311): the dotted-key
regex `^[a-zA-Z_][a-zA-Z0-9_]*(\.[a-zA-Z_][a-zA-Z0-9_]*)*$`. -/
def isIdentStart (c : Char) : Bool :=
  ('a' ≤ c && c ≤ 'z') || ('A' ≤ c && c ≤ 'Z') || c = '_'

/-- The dotted-key regex of `_validate_config_key` as a pattern (its one
group is unnamed in the source, so it does not affect acceptance). -/
def config_key_pattern : Re :=
  .cat (.cls isIdentStart)
  (.cat (.star (.cls isWordChar))
    (.star (.cat (.lit '.') (.cat (.cls isIdentStart) (.star (.cls isWordChar))))))

/-- `_validate_config_key` itself: does the key match the dotted-key
regex. -/
def validate_config_key (k : String) : Bool :=
  (reMatch config_key_pattern k).isSome

/-- Modelled from the spec: the configuration store behind
`BasePlugin.get_config` lives in the host framework (`src.plugin_system`),
which is not part of this repository.  Spec §4.1 describes it as a
dotted-path lookup; we model the flattened tree as an association list
from dotted keys to values. -/
abbrev ConfigStore := List (String × CVal)

/-- Modelled from the spec: `get(key, default)` with the call-site default
`None` that `_handle_set_config` uses (`self.get_config(key)`). -/
def storeGet (st : ConfigStore) (k : String) : CVal :=
  match List.find? (fun e => e.1 = k) st with
  | some e => e.2
  | Option.none => .none

/-- Modelled from the spec: "on success the whole validated value is
installed in the store" — install the value under the key. -/
def storeSet (st : ConfigStore) (k : String) (v : CVal) : ConfigStore :=
  match st with
  | [] => [(k, v)]
  | e :: rest => if e.1 = k then (k, v) :: rest else e :: storeSet rest k v

/-- The outcome of one `set` request, one constructor per return path of
`_handle_set_config`. -/
inductive SetOutcome where
  | missingKey
  | missingValue
  | invalidKey (k : String)
  | readOnly (k : String)
  | conversionFailed (e : ConvErr)
  | validationFailed (k : String)
  | success (newValue : CVal)
deriving DecidableEq, Repr

/-- `ConfigCommand._handle_set_config`
(src/components/commands/config_command.py lines 211–264) as a decision
function over the store: missing-argument checks, key-format check,
read-only denylist, conversion against the current value's type, then
per-key validation.  The final installation step is modelled from the
spec ("on success the whole validated value is installed in the store"):
the source, being a template, stops at reporting success without writing
to the host's store.  Returns the outcome and the resulting store. -/
def handle_set_config (st : ConfigStore) (key : Option String) (value : Option String) :
    SetOutcome × ConfigStore :=
  match key with
  | Option.none => (.missingKey, st)
  | some k =>
    if k = "" then (.missingKey, st)
    else
      match value with
      | Option.none => (.missingValue, st)
      | some v =>
        if !validate_config_key k then (.invalidKey k, st)
        else if k ∈ ["plugin.config_version", "plugin.plugin_name"] then (.readOnly k, st)
        else
          match convert_config_value v (storeGet st k).ctype with
          | .error e => (.conversionFailed e, st)
          | .ok newValue =>
            if !validate_config_value k newValue then (.validationFailed k, st)
            else (.success newValue, storeSet st k newValue)

/-- The schema defaults of `ExampleTemplatePlugin.config_schema`
(src/plugin.py lines 58–164), flattened to dotted keys.  `0.1` is written
as the rational 1/10; CPython stores the nearest double, and no claim
observes the difference. -/
def defaultConfig : ConfigStore :=
  [("plugin.enabled", .b true),
   ("plugin.config_version", .s "1.0.0"),
   ("plugin.debug_mode", .b false),
   ("features.enable_greetings", .b true),
   ("features.enable_smart_responses", .b true),
   ("features.enable_help_command", .b true),
   ("features.enable_config_command", .b false),
   ("actions.greeting_keywords", .l ["你好", "hello", "hi", "嗨"]),
   ("actions.response_probability", .f (mkRat 1 10)),
   ("actions.max_response_length", .i 200),
   ("actions.enable_emoji", .b true),
   ("commands.help_prefix", .s "📖"),
   ("commands.config_admin_only", .b true),
   ("commands.command_timeout", .i 30),
   ("advanced.cache_enabled", .b true),
   ("advanced.cache_ttl", .i 3600),
   ("advanced.log_level", .s "INFO"),
   ("advanced.performance_monitor", .b false)]

/-- C3: `"/config set debug_mode true"` matches the config pattern with
captures `{action:"set", key:"debug_mode", value:"true"}`; a set of
`plugin.debug_mode` to the raw string `"true"` succeeds with the coerced
value `True` installed, so a following get returns `True`. -/
theorem config_set_scenario :
    reMatch config_command_pattern "/config set debug_mode true" =
      some [("action", "set"), ("key", "debug_mode"), ("value", "true")] ∧
    (handle_set_config defaultConfig (some "plugin.debug_mode") (some "true")).1 =
      .success (.b true) ∧
    storeGet (handle_set_config defaultConfig (some "plugin.debug_mode") (some "true")).2
      "plugin.debug_mode" = .b true := by
  refine ⟨?_, ?_, ?_⟩ <;> decide

/-- Shared fact: the two boolean token sets of `_convert_config_value` are
disjoint. -/
theorem bool_token_sets_disjoint (x : String)
    (h : x ∈ ["true", "1", "yes", "on", "enabled"]) :
    x ∉ ["false", "0", "no", "off", "disabled"] := by
  fin_cases h <;> decide

/-- C4: coercing a raw string to `bool` yields `True` exactly on the
case-insensitive set {true,1,yes,on,enabled}, `False` exactly on
{false,0,no,off,disabled}, and a conversion error on every other
string. -/
theorem bool_coercion_characterisation (s : String) :
    (convert_config_value s .bool = .ok (.b true) ↔
      pyLower s ∈ ["true", "1", "yes", "on", "enabled"]) ∧
    (convert_config_value s .bool = .ok (.b false) ↔
      pyLower s ∈ ["false", "0", "no", "off", "disabled"]) ∧
    (convert_config_value s .bool = .error (.notBool s) ↔
      (pyLower s ∉ ["true", "1", "yes", "on", "enabled"] ∧
       pyLower s ∉ ["false", "0", "no", "off", "disabled"])) := by
  unfold convert_config_value
  by_cases h1 : pyLower s ∈ ["true", "1", "yes", "on", "enabled"]
  · have h2 := bool_token_sets_disjoint (pyLower s) h1
    simp [h1, h2]
  · by_cases h2 : pyLower s ∈ ["false", "0", "no", "off", "disabled"] <;>
      simp [h1, h2]

/-- C5: a set of either read-only key fails with the read-only outcome and
leaves the store unchanged, for every store and every candidate value —
the result never consults coercion or validation. -/
theorem readonly_set_always_fails (st : ConfigStore) (k v : String)
    (hk : k = "plugin.config_version" ∨ k = "plugin.plugin_name") :
    handle_set_config st (some k) (some v) = (.readOnly k, st) := by
  rcases hk with h | h <;> subst h <;> rfl

/-- Witness for C5: setting `plugin.config_version` (to an arbitrary value,
on the default store) is refused as read-only. -/
theorem readonly_set_always_fails_witness :
    handle_set_config defaultConfig (some "plugin.config_version") (some "2.0.0") =
      (.readOnly "plugin.config_version", defaultConfig) :=
  readonly_set_always_fails defaultConfig "plugin.config_version" "2.0.0" (Or.inl rfl)

/-- C6: setting `actions.response_probability` to `"1.5"` fails validation
(and leaves the store unchanged), while setting it to `"0.5"` succeeds
with the coerced value 1/2. -/
theorem response_probability_boundary :
    (handle_set_config defaultConfig (some "actions.response_probability") (some "1.5")) =
      (.validationFailed "actions.response_probability", defaultConfig) ∧
    (handle_set_config defaultConfig (some "actions.response_probability") (some "0.5")).1 =
      .success (.f (mkRat 1 2)) := by
  refine ⟨?_, ?_⟩ <;> decide

/-- C9's reading of the list coercion, written from the claim's words: the
comma-separated items of the interior, each with surrounding whitespace
and quote characters stripped, omitting every item that is empty after
that stripping. -/
def claimed_list_coercion (s : String) : List String :=
  (((splitOnChar ',' (pyInterior s)).map String.mk).filterMap (fun item =>
    let stripped := pyStripChars (pyWhitespace ++ ['"', '\'']) item
    if stripped = "" then Option.none else some stripped))

/-- Counterexample to C9: on `"['']"` (a bracketed list holding one item
that is only quotes) the source keeps the item — its whitespace-strip is
non-empty — and quote-strips it to the empty string, returning `[""]`,
not the `[]` the claim's description gives. -/
theorem list_coercion_claim_false :
    ¬ (convert_config_value "['']" CType.list =
        .ok (.l (claimed_list_coercion "['']"))) := by decide

/-- C9 (amended): for a bracket-delimited string, the list coercion keeps
exactly the comma-separated items that are non-blank after
whitespace-stripping, each whitespace-stripped and then quote-stripped
(so an item consisting only of quotes yields an empty string); in
particular `"[]"` and `"[ , ]"` coerce to the empty list. -/
def amended_list_coercion (s : String) : List String :=
  (((splitOnChar ',' (pyInterior s)).map String.mk).filterMap (fun item =>
    if pyStrip item = "" then Option.none
    else some (pyStripChars ['"', '\''] (pyStrip item))))

/-- C9 (amended, proved): the source's list branch computes exactly
`amended_list_coercion` on every bracket-delimited string, and the two
particular inputs of the claim coerce to the empty list. -/
theorem list_coercion_amended (s : String)
    (h1 : pyStartsWith s "[" = true) (h2 : pyEndsWith s "]" = true) :
    convert_config_value s .list = .ok (.l (amended_list_coercion s)) ∧
    convert_config_value "[]" .list = .ok (.l []) ∧
    convert_config_value "[ , ]" .list = .ok (.l []) := by
  refine ⟨?_, by decide, by decide⟩
  simp [convert_config_value, amended_list_coercion, h1, h2]

/-- Witness for C9 (amended): a concrete bracketed string with quoted and
blank items. -/
theorem list_coercion_amended_witness :
    convert_config_value "[a, 'b' , ]" .list =
      .ok (.l (amended_list_coercion "[a, 'b' , ]")) :=
  (list_coercion_amended "[a, 'b' , ]" (by decide) (by decide)).1

/- ============================================================
   Part 4: nested config helpers (src/utils/helpers.py)
   ============================================================ -/

/-- A JSON / plain-Python value: `None`, bool, number (exact rational),
string, list, or dict (an ordered association list, as Python dicts
preserve insertion order). -/
inductive Json where
  | null
  | bool (b : Bool)
  | num (q : Rat)
  | str (s : String)
  | arr (items : List Json)
  | obj (entries : List (String × Json))

/-- `key in d` / `d[key]` on a Python dict: first entry with the key. -/
def lookupJ : List (String × Json) → String → Option Json
  | [], _ => Option.none
  | e :: rest, k => if e.1 = k then some e.2 else lookupJ rest k

/-- `d[key] = v` on a Python dict: overwrite in place, else append. -/
def upsertJ : List (String × Json) → String → Json → List (String × Json)
  | [], k, v => [(k, v)]
  | e :: rest, k, v => if e.1 = k then (k, v) :: rest else e :: upsertJ rest k v

/-- `ConfigHelper.get_nested_value` (src/utils/helpers.py lines 249–257):
walk the path while the current node is a dict containing the key;
otherwise return the default. -/
def get_nested_value : Json → List String → Json → Json
  | cur, [], _ => cur
  | .obj es, k :: rest, dflt =>
    match lookupJ es k with
    | some c => get_nested_value c rest dflt
    | Option.none => dflt
  | _, _ :: _, dflt => dflt

/-- `ConfigHelper.set_nested_value` (src/utils/helpers.py lines 260–267):
walk `path[:-1]`, creating a fresh `{}` for a missing key, then assign at
the final key.  `none` models the `TypeError`/`IndexError` CPython raises
on an empty path or when a traversed node is not a dict (descending into
an existing non-dict value fails at the next subscript, which the
recursive call reproduces). -/
def set_nested_value : Json → List String → Json → Option Json
  | _, [], _ => Option.none
  | cur, [k], v =>
    match cur with
    | .obj es => some (.obj (upsertJ es k v))
    | _ => Option.none
  | cur, k :: k' :: rest, v =>
    match cur with
    | .obj es =>
      (set_nested_value ((lookupJ es k).getD (.obj [])) (k' :: rest) v).map
        (fun c' => .obj (upsertJ es k c'))
    | _ => Option.none

/-- Is the value a Python dict? -/
def Json.isObj : Json → Bool
  | .obj _ => true
  | _ => false

/-- C10's hypothesis: every node already present along the path is itself
a dictionary. -/
def dicts_along : Json → List String → Bool
  | _, [] => true
  | .obj es, k :: rest =>
    (match lookupJ es k with
     | some c => c.isObj && dicts_along c rest
     | Option.none => true)
  | _, _ :: _ => false

/-- Updating a key makes it present with the new value. -/
theorem lookupJ_upsertJ (es : List (String × Json)) (k : String) (v : Json) :
    lookupJ (upsertJ es k v) k = some v := by
  induction es with
  | nil => simp [upsertJ, lookupJ]
  | cons e rest ih =>
    by_cases h : e.1 = k <;> simp [upsertJ, lookupJ, h, ih]

/-- C10: for a dict `d`, a non-empty dotted path `p` whose already-present
nodes are all dicts, and any value `v`, `set_nested_value` succeeds and a
following `get_nested_value` along `p` returns `v` (missing levels were
created as fresh dicts). -/
theorem nested_set_get_roundtrip (es : List (String × Json)) (p : List String)
    (v dflt : Json) (hp : p ≠ []) (hd : dicts_along (.obj es) p = true) :
    ∃ d', set_nested_value (.obj es) p v = some d' ∧
      get_nested_value d' p dflt = v := by
  induction p generalizing es with
  | nil => exact absurd rfl hp
  | cons k rest ih =>
    cases rest with
    | nil =>
      refine ⟨.obj (upsertJ es k v), rfl, ?_⟩
      simp [get_nested_value, lookupJ_upsertJ]
    | cons k' rest' =>
      have hchild : ∃ es₂, (lookupJ es k).getD (.obj []) = .obj es₂ ∧
          dicts_along (.obj es₂) (k' :: rest') = true := by
        simp only [dicts_along] at hd
        cases hlk : lookupJ es k with
        | none => exact ⟨[], by simp [hlk], by simp [dicts_along, lookupJ]⟩
        | some c =>
          rw [hlk] at hd
          simp only [Bool.and_eq_true] at hd
          obtain ⟨hobj, hrest⟩ := hd
          cases c with
          | obj es₂ => exact ⟨es₂, by simp [hlk], hrest⟩
          | null => simp [Json.isObj] at hobj
          | bool b => simp [Json.isObj] at hobj
          | num q => simp [Json.isObj] at hobj
          | str s => simp [Json.isObj] at hobj
          | arr l => simp [Json.isObj] at hobj
      obtain ⟨es₂, hes₂, hd₂⟩ := hchild
      obtain ⟨c', hset, hget⟩ := ih es₂ (by simp) hd₂
      refine ⟨.obj (upsertJ es k c'), ?_, ?_⟩
      · simp [set_nested_value, hes₂, hset]
      · simp [get_nested_value, lookupJ_upsertJ, hget]

/-- Witness for C10: setting `["a","b"]` in the empty dict and reading it
back returns the written value. -/
theorem nested_set_get_roundtrip_witness :
    ∃ d', set_nested_value (.obj []) ["a", "b"] (.num 5) = some d' ∧
      get_nested_value d' ["a", "b"] .null = .num 5 :=
  nested_set_get_roundtrip [] ["a", "b"] (.num 5) .null (by simp)
    (by rfl)

/- ============================================================
   Part 5: manifest validator (src/scripts/validate_manifest.py)
   ============================================================ -/

/-- Python truthiness of a JSON value: `None`, `False`, `0`, `""`, `[]`
and `{}` are falsy. -/
def pyTruthy : Json → Bool
  | .null => false
  | .bool b => b
  | .num q => q.num ≠ 0
  | .str s => s ≠ ""
  | .arr l => !l.isEmpty
  | .obj es => !es.isEmpty

/-- `isinstance(j, str)`. -/
def Json.isStr : Json → Bool
  | .str _ => true
  | _ => false

/-- Python `==` against an integer literal (used for
`manifest_version != 3`): numbers by value, bools as 0/1, nothing else
equals a number. -/
def pyEqNum (j : Json) (n : Rat) : Bool :=
  match j with
  | .num q => q = n
  | .bool b => (if b then (1 : Rat) else 0) = n
  | _ => false

/-- Python `==` against a string literal: only an equal string. -/
def pyEqStr (j : Json) (s : String) : Bool :=
  match j with
  | .str t => t = s
  | _ => false

/-- The errors `validate_manifest.py` can append, one constructor per
`self.errors.append` site (the message text is abbreviated to its
identifying content — only the list's emptiness is ever consulted). -/
inductive VErr where
  | badManifestVersion
  | missingField (field : String)
  | emptyField (field : String)
  | badVersionFormat
  | authorNotObject
  | authorNameMissing
  | keywordsNotList
  | categoriesNotList
  | badMinVersion
  | badMaxVersion
  | pluginInfoMissing
  | isBuiltInNotBool
  | componentsNotList
  | componentNotObject (i : Nat)
  | componentBadType (i : Nat)
  | componentBadName (i : Nat)
deriving DecidableEq, Repr

/-- The warnings, one constructor per `self.warnings.append` site. -/
inductive VWarn where
  | authorUrlInvalid
  | urlInvalid (field : String)
  | noKeywords
  | noCategories
  | noHostApplication
  | badDefaultLocale
  | localesPathMissing
  | nonStandardPluginType
  | noComponents
  | componentNoDescription (i : Nat)
deriving DecidableEq, Repr

/-- The validator's two external oracles, both of which feed only
warnings: `_is_valid_url` (lines 175–184, a fixed URL regex applied to a
string) and the `os.path.exists` check of `_validate_locales`
(lines 122–126, a filesystem probe).  The theorems quantify over every
such pair, so no property below depends on either. -/
structure ValidatorEnv where
  urlValid : String → Bool
  localeExists : String → Bool

/-- What one `_validate_*` method contributes: the errors and warnings it
appends, in order, and whether it ends in an uncaught `TypeError` (a
`re.match`/`os.path.join` applied to a truthy non-string).  The methods
never read `self.errors`/`self.warnings`, so their contribution is a pure
function of the manifest (and the oracles). -/
structure StepOut where
  errs : List VErr
  warns : List VWarn
  crash : Bool

/-- `manifest.get(key)`. -/
def mget (m : List (String × Json)) (k : String) : Option Json := lookupJ m k

/-- `^\d+\.\d+\.\d+$` on a character list: exactly three non-empty digit
runs separated by dots.  (`\d` is modelled as ASCII digits.) -/
def semverCore (l : List Char) : Bool :=
  match splitOnChar '.' l with
  | [a, b, c] =>
    !a.isEmpty && a.all Char.isDigit && !b.isEmpty && b.all Char.isDigit &&
      !c.isEmpty && c.all Char.isDigit
  | _ => false

/-- `re.match(r"^\d+\.\d+\.\d+$", s)`: Python `$` also matches just before
one trailing newline. -/
def isSemver (s : String) : Bool :=
  semverCore s.data ||
    (match s.data.getLast? with
     | some '\n' => semverCore s.data.dropLast
     | _ => false)

/-- `_validate_manifest_version` (lines 43–47): error unless the value
equals 3 (a missing key reads `None`, which is not 3). -/
def checkManifestVersion (m : List (String × Json)) : StepOut :=
  match mget m "manifest_version" with
  | some j => if pyEqNum j 3 then ⟨[], [], false⟩ else ⟨[.badManifestVersion], [], false⟩
  | Option.none => ⟨[.badManifestVersion], [], false⟩

/-- One iteration of `_validate_basic_info`'s required-field loop
(lines 51–57): falsy or non-string → missing; whitespace-blank → empty. -/
def checkBasicField (m : List (String × Json)) (field : String) : List VErr :=
  match mget m field with
  | Option.none => [.missingField field]
  | some j =>
    if !pyTruthy j || !j.isStr then [.missingField field]
    else
      match j with
      | .str s => if pyStrip s = "" then [.emptyField field] else []
      | _ => []

/-- `_validate_basic_info` (lines 49–62): the three required fields, then
the semver check of `version` (default `''`); `re.match` on a non-string
`version` raises `TypeError`. -/
def checkBasicInfo (m : List (String × Json)) : StepOut :=
  let loopErrs := checkBasicField m "name" ++ checkBasicField m "version" ++
    checkBasicField m "description"
  match (mget m "version").getD (.str "") with
  | .str s => ⟨loopErrs ++ (if isSemver s then [] else [.badVersionFormat]), [], false⟩
  | _ => ⟨loopErrs, [], true⟩

/-- `_validate_author` (lines 64–76): must be a truthy dict; `name` must
be truthy; a truthy `url` is checked by the URL oracle (warning only), a
truthy non-string `url` crashes the regex. -/
def checkAuthor (env : ValidatorEnv) (m : List (String × Json)) : StepOut :=
  match mget m "author" with
  | Option.none => ⟨[.authorNotObject], [], false⟩
  | some j =>
    match j with
    | .obj es =>
      if es.isEmpty then ⟨[.authorNotObject], [], false⟩
      else
        let nameErr :=
          match lookupJ es "name" with
          | some nj => if pyTruthy nj then [] else [.authorNameMissing]
          | Option.none => [.authorNameMissing]
        match lookupJ es "url" with
        | Option.none => ⟨nameErr, [], false⟩
        | some uj =>
          if !pyTruthy uj then ⟨nameErr, [], false⟩
          else
            match uj with
            | .str u => ⟨nameErr, if env.urlValid u then [] else [.authorUrlInvalid], false⟩
            | _ => ⟨nameErr, [], true⟩
    | _ => ⟨[.authorNotObject], [], false⟩

/-- One field of `_validate_urls` (lines 78–84): warnings and a possible
crash, as for `author.url`. -/
def checkUrlField (env : ValidatorEnv) (m : List (String × Json)) (field : String) :
    List VWarn × Bool :=
  match mget m field with
  | Option.none => ([], false)
  | some uj =>
    if !pyTruthy uj then ([], false)
    else
      match uj with
      | .str u => (if env.urlValid u then [] else [.urlInvalid field], false)
      | _ => ([], true)

/-- `_validate_urls` (lines 78–84): `homepage_url` then `repository_url`;
a crash on the first skips the second. -/
def checkUrls (env : ValidatorEnv) (m : List (String × Json)) : StepOut :=
  match checkUrlField env m "homepage_url" with
  | (w1, true) => ⟨[], w1, true⟩
  | (w1, false) =>
    match checkUrlField env m "repository_url" with
    | (w2, c2) => ⟨[], w1 ++ w2, c2⟩

/-- `_validate_keywords_categories` (lines 86–98): each field defaults to
`[]`, must be a list (error), and an empty list is a warning. -/
def checkKeywordsCategories (m : List (String × Json)) : StepOut :=
  let kw :=
    match (mget m "keywords").getD (.arr []) with
    | .arr l => (([] : List VErr), if l.isEmpty then [VWarn.noKeywords] else [])
    | _ => ([VErr.keywordsNotList], [])
  let cat :=
    match (mget m "categories").getD (.arr []) with
    | .arr l => (([] : List VErr), if l.isEmpty then [VWarn.noCategories] else [])
    | _ => ([VErr.categoriesNotList], [])
  ⟨kw.1 ++ cat.1, kw.2 ++ cat.2, false⟩

/-- One version field of `_validate_host_application`: a truthy string is
semver-checked (error), a truthy non-string crashes `re.match`. -/
def checkHostVersionField (es : List (String × Json)) (key : String) (e : VErr) :
    List VErr × Bool :=
  match lookupJ es key with
  | Option.none => ([], false)
  | some j =>
    if !pyTruthy j then ([], false)
    else
      match j with
      | .str s => (if isSemver s then [] else [e], false)
      | _ => ([], true)

/-- `_validate_host_application` (lines 100–114): missing or non-dict is
only a warning; otherwise `min_version` then `max_version`. -/
def checkHostApplication (m : List (String × Json)) : StepOut :=
  match mget m "host_application" with
  | Option.none => ⟨[], [.noHostApplication], false⟩
  | some j =>
    match j with
    | .obj es =>
      if es.isEmpty then ⟨[], [.noHostApplication], false⟩
      else
        match checkHostVersionField es "min_version" .badMinVersion with
        | (e1, true) => ⟨e1, [], true⟩
        | (e1, false) =>
          match checkHostVersionField es "max_version" .badMaxVersion with
          | (e2, c2) => ⟨e1 ++ e2, [], c2⟩
    | _ => ⟨[], [.noHostApplication], false⟩

/-- `^[a-z]{2}(-[A-Z]{2})?$` on a character list. -/
def localeCore (l : List Char) : Bool :=
  match l with
  | [a, b] => a.isLower && b.isLower
  | [a, b, '-', c, d] => a.isLower && b.isLower && c.isUpper && d.isUpper
  | _ => false

/-- The `default_locale` regex with Python's `$` semantics. -/
def isLocaleTag (s : String) : Bool :=
  localeCore s.data ||
    (match s.data.getLast? with
     | some '\n' => localeCore s.data.dropLast
     | _ => false)

/-- `_validate_locales` (lines 116–126): a truthy `default_locale` is
format-checked (warning; non-string crashes), then a truthy
`locales_path` is probed on disk (warning; `os.path.join` crashes on a
non-string). -/
def checkLocales (env : ValidatorEnv) (m : List (String × Json)) : StepOut :=
  let dl : List VWarn × Bool :=
    match mget m "default_locale" with
    | Option.none => ([], false)
    | some j =>
      if !pyTruthy j then ([], false)
      else
        match j with
        | .str s => (if isLocaleTag s then [] else [.badDefaultLocale], false)
        | _ => ([], true)
  match dl with
  | (w1, true) => ⟨[], w1, true⟩
  | (w1, false) =>
    match mget m "locales_path" with
    | Option.none => ⟨[], w1, false⟩
    | some j =>
      if !pyTruthy j then ⟨[], w1, false⟩
      else
        match j with
        | .str p => ⟨[], w1 ++ (if env.localeExists p then [] else [.localesPathMissing]), false⟩
        | _ => ⟨[], w1, true⟩

/-- `_validate_components` (lines 152–173): empty list is a warning; each
element must be a dict (error, continue), with `type` in
{action,command,tool} (error), truthy string `name` (error) and truthy
string `description` (warning). -/
def checkComponentList (i : Nat) : List Json → List VErr × List VWarn
  | [] => ([], [])
  | c :: rest =>
    let here : List VErr × List VWarn :=
      match c with
      | .obj ces =>
        let typeOk :=
          match lookupJ ces "type" with
          | some j => pyEqStr j "action" || pyEqStr j "command" || pyEqStr j "tool"
          | Option.none => false
        let nameOk : Bool :=
          match lookupJ ces "name" with
          | some (.str s) => s ≠ ""
          | _ => false
        let descOk : Bool :=
          match lookupJ ces "description" with
          | some (.str s) => s ≠ ""
          | _ => false
        ((if typeOk then [] else [.componentBadType i]) ++
          (if nameOk then [] else [.componentBadName i]),
         if descOk then [] else [.componentNoDescription i])
      | _ => ([.componentNotObject i], [])
    let (es', ws') := checkComponentList (i + 1) rest
    (here.1 ++ es', here.2 ++ ws')

/-- `_validate_plugin_info` (lines 128–150): must be a truthy dict
(error); `is_built_in` must be a bool (error); a non-standard
`plugin_type` is a warning; `components` defaults to `[]` and must be a
list (error), whose elements are then checked. -/
def checkPluginInfo (m : List (String × Json)) : StepOut :=
  match mget m "plugin_info" with
  | Option.none => ⟨[.pluginInfoMissing], [], false⟩
  | some j =>
    match j with
    | .obj es =>
      if es.isEmpty then ⟨[.pluginInfoMissing], [], false⟩
      else
        let e1 : List VErr :=
          match lookupJ es "is_built_in" with
          | some (.bool _) => []
          | _ => [.isBuiltInNotBool]
        let w1 : List VWarn :=
          match lookupJ es "plugin_type" with
          | some j =>
            if pyEqStr j "general" || pyEqStr j "game" || pyEqStr j "utility" ||
                pyEqStr j "entertainment" || pyEqStr j "social" ||
                pyEqStr j "productivity" then []
            else [.nonStandardPluginType]
          | Option.none => [.nonStandardPluginType]
        match (lookupJ es "components").getD (.arr []) with
        | .arr l =>
          let emptyWarn : List VWarn := if l.isEmpty then [.noComponents] else []
          let (e2, w2) := checkComponentList 0 l
          ⟨e1 ++ e2, w1 ++ emptyWarn ++ w2, false⟩
        | _ => ⟨e1 ++ [.componentsNotList], w1, false⟩
    | _ => ⟨[.pluginInfoMissing], [], false⟩

/-- The eight validation methods, in the order `validate` (lines 22–41)
calls them. -/
def validatorSteps (env : ValidatorEnv) (m : List (String × Json)) : List StepOut :=
  [checkManifestVersion m, checkBasicInfo m, checkAuthor env m, checkUrls env m,
   checkKeywordsCategories m, checkHostApplication m, checkLocales env m,
   checkPluginInfo m]

/-- Run the methods in order, accumulating errors and warnings; an
uncaught exception stops the run (its own appends made so far are kept). -/
def runValidatorSteps : List StepOut → List VErr × List VWarn × Bool
  | [] => ([], [], false)
  | s :: rest =>
    if s.crash then (s.errs, s.warns, true)
    else
      let (e, w, c) := runValidatorSteps rest
      (s.errs ++ e, s.warns ++ w, c)

/-- The accumulated error list when the script stops. -/
def validatorErrors (env : ValidatorEnv) (m : List (String × Json)) : List VErr :=
  (runValidatorSteps (validatorSteps env m)).1

/-- Did the validation run end in an uncaught exception? -/
def validatorCrashed (env : ValidatorEnv) (m : List (String × Json)) : Bool :=
  (runValidatorSteps (validatorSteps env m)).2.2

/-- The process exit status of `main` (lines 212–229):
`sys.exit(0 if is_valid else 1)` where `validate` returns
`len(self.errors) == 0`; an uncaught exception makes CPython exit with
status 1. -/
def validatorExitCode (env : ValidatorEnv) (m : List (String × Json)) : Nat :=
  if validatorCrashed env m then 1
  else if validatorErrors env m = [] then 0 else 1

/-- An oracle pair for concrete evaluations: every URL valid, every
locale path present. -/
def trivialEnv : ValidatorEnv := ⟨fun _ => true, fun _ => true⟩

/-- A manifest whose fields are all individually valid except that
`host_application.min_version` holds the number 1 instead of a string:
`re.match` then raises `TypeError` with the error list still empty. -/
def crashManifest : List (String × Json) :=
  [("manifest_version", .num 3),
   ("name", .str "x"),
   ("version", .str "1.0.0"),
   ("description", .str "d"),
   ("author", .obj [("name", .str "a")]),
   ("host_application", .obj [("min_version", .num 1)]),
   ("plugin_info", .obj
     [("is_built_in", .bool false),
      ("plugin_type", .str "general"),
      ("components", .arr [.obj
        [("type", .str "action"), ("name", .str "n"), ("description", .str "d")]])])]

/-- Counterexample to C8: on `crashManifest` the script exits with
status 1 while the accumulated error list is empty — the exit code is not
0 exactly when the error list is empty, because a truthy non-string
version field crashes the run. -/
theorem validator_exit_code_claim_false :
    validatorExitCode trivialEnv crashManifest = 1 ∧
    validatorErrors trivialEnv crashManifest = [] := by
  exact ⟨rfl, rfl⟩

/-- C8 (amended): whenever validation completes without an uncaught
exception, the exit code is 0 exactly when the accumulated error list is
empty (and 1 otherwise); and the exit code is a function of the error
list and completion status alone, so the warnings list never affects
it. -/
theorem validator_exit_code_amended (env : ValidatorEnv) (m : List (String × Json))
    (h : validatorCrashed env m = false) :
    (validatorExitCode env m = 0 ↔ validatorErrors env m = []) ∧
    (∀ (env' : ValidatorEnv) (m' : List (String × Json)),
      validatorErrors env' m' = validatorErrors env m →
      validatorCrashed env' m' = validatorCrashed env m →
      validatorExitCode env' m' = validatorExitCode env m) := by
  constructor
  · by_cases he : validatorErrors env m = [] <;> simp [validatorExitCode, h, he]
  · intro env' m' he hc
    simp [validatorExitCode, he, hc]

/-- Witness for C8 (amended): the crash-free manifest obtained from
`crashManifest` by making `min_version` the string `"1.0.0"` exits with
code 0 and an empty error list. -/
def validManifest : List (String × Json) :=
  [("manifest_version", .num 3),
   ("name", .str "x"),
   ("version", .str "1.0.0"),
   ("description", .str "d"),
   ("author", .obj [("name", .str "a")]),
   ("host_application", .obj [("min_version", .str "1.0.0")]),
   ("plugin_info", .obj
     [("is_built_in", .bool false),
      ("plugin_type", .str "general"),
      ("components", .arr [.obj
        [("type", .str "action"), ("name", .str "n"), ("description", .str "d")]])])]

/-- Witness applying the amended C8 theorem at a concrete manifest. -/
theorem validator_exit_code_amended_witness :
    (validatorExitCode trivialEnv validManifest = 0 ↔
      validatorErrors trivialEnv validManifest = []) ∧
    (∀ (env' : ValidatorEnv) (m' : List (String × Json)),
      validatorErrors env' m' = validatorErrors trivialEnv validManifest →
      validatorCrashed env' m' = validatorCrashed trivialEnv validManifest →
      validatorExitCode env' m' = validatorExitCode trivialEnv validManifest) :=
  validator_exit_code_amended trivialEnv validManifest (by rfl)
